import Mathlib

/-!
Overview: Verification of the baseball statistics widget (`widget.py`)

A shallow embedding of the data-handling core of `widget.py`:
the API fetch wrapper, the three record extractors, the three
DataFrame cleaning functions, the filter/sort pipelines and the
caption line of the PDF report, together with theorems settling
the specification claims about them.

Python values (JSON payloads and DataFrame cells) are modelled by
the inductive type `PyVal`; Python exceptions are modelled by the
`Except PyErr` monad: a function that can raise returns
`Except.error e` exactly where the Python code would raise.
-/

/-- A Python/JSON value as it occurs in API payloads and DataFrame
cells.  `nan` is pandas' missing-value marker, `none` is Python's
`None`. -/
inductive PyVal where
  | str (s : String)
  | num (q : ℚ)
  | bool (b : Bool)
  | none
  | nan
  | dict (fields : List (String × PyVal))
  | list (elems : List PyVal)

/-- The Python exceptions the embedded code can raise. -/
inductive PyErr where
  | attributeError
  | typeError
  | valueError
  | connectionError
  | jsonDecodeError
  deriving DecidableEq

/-- Is the value a Python `dict`? (`isinstance(x, dict)`). -/
def PyVal.isDict : PyVal → Bool
  | .dict _ => true
  | _ => false

/-- First binding of key `k` in a dict's field list, mirroring
Python dict lookup. -/
def dictLookup (fields : List (String × PyVal)) (k : String) : Option PyVal :=
  fields.lookup k

/-- `d[k] = v` on a Python dict: replace the value of an existing
key in place, otherwise append the new binding (insertion order). -/
def dictSet (fields : List (String × PyVal)) (k : String) (v : PyVal) :
    List (String × PyVal) :=
  match fields with
  | [] => [(k, v)]
  | (k', v') :: rest => if k' = k then (k, v) :: rest else (k', v') :: dictSet rest k v

/-- `x.get(k, default)`: defined on dicts, an `AttributeError` on
every other receiver — exactly the behaviour the extractors rely
on. -/
def pyGet (x : PyVal) (k : String) (default : PyVal) : Except PyErr PyVal :=
  match x with
  | .dict fields => .ok ((dictLookup fields k).getD default)
  | _ => .error .attributeError

/-- `x[k] = v` on a Python value: assignment on a dict, a
`TypeError` on anything else. -/
def pySetItem (x : PyVal) (k : String) (v : PyVal) : Except PyErr PyVal :=
  match x with
  | .dict fields => .ok (.dict (dictSet fields k v))
  | _ => .error .typeError

/-- `for y in x`: lists yield their elements, dicts their keys,
strings their characters; numbers, booleans and `None` raise
`TypeError`. -/
def pyIter (x : PyVal) : Except PyErr (List PyVal) :=
  match x with
  | .list xs => .ok xs
  | .dict fields => .ok (fields.map fun p => PyVal.str p.1)
  | .str s => .ok (s.toList.map fun c => PyVal.str (String.mk [c]))
  | _ => .error .typeError

/-- ASCII uppercase of one character (`str.upper` on the column
names occurring here, which are ASCII). -/
def upperChar (c : Char) : Char :=
  if 'a' ≤ c ∧ c ≤ 'z' then Char.ofNat (c.toNat - 32) else c

/-- `s.upper()` for ASCII strings. -/
def upperStr (s : String) : String := String.mk (s.toList.map upperChar)

/-- Character-list version of `str.startswith`. -/
def startsWithAux : List Char → List Char → Bool
  | _, [] => true
  | [], _ :: _ => false
  | c :: cs, d :: ds => c == d && startsWithAux cs ds

/-- `s.startswith(p)`. -/
def strStartsWith (s p : String) : Bool :=
  startsWithAux s.toList p.toList

/-- Numeric value of a digit string (most significant first). -/
def digitsVal (cs : List Char) : Nat :=
  cs.foldl (fun a c => 10 * a + (c.toNat - 48)) 0

/-- Value of a decimal literal with integer part `ip` and
fractional part `fp`. -/
def fracVal (ip fp : List Char) : ℚ :=
  (digitsVal ip : ℚ) + (digitsVal fp : ℚ) / 10 ^ fp.length

/-- Are all characters decimal digits? -/
def isDigitsB (cs : List Char) : Bool := cs.all fun c => '0' ≤ c && c ≤ '9'

/-- Parse an unsigned decimal literal (`ddd`, `ddd.ddd`, `.ddd`,
`ddd.`); anything else is unparseable.  Exponent and infinity
forms, which never occur in these stat feeds, are not modelled. -/
def pyFloatCore (cs : List Char) : Option ℚ :=
  let ip := cs.takeWhile fun c => c != '.'
  let rest := cs.dropWhile fun c => c != '.'
  match rest with
  | [] => if isDigitsB ip && !ip.isEmpty then some ((digitsVal ip : ℚ)) else Option.none
  | _ :: fp =>
      if isDigitsB ip && isDigitsB fp && (!ip.isEmpty || !fp.isEmpty) then
        some (fracVal ip fp)
      else Option.none

/-- Numeric parsing of a string as done by `pd.to_numeric`
(optionally signed decimal literal). -/
def pyFloat (s : String) : Option ℚ :=
  match s.toList with
  | '+' :: rest => pyFloatCore rest
  | '-' :: rest => (pyFloatCore rest).map Neg.neg
  | cs => pyFloatCore cs

/-- One cell under `pd.to_numeric(col, errors="coerce")`: numbers
stay numbers, parseable strings become numbers, everything else
becomes missing. -/
def toNumericCell : PyVal → PyVal
  | .num q => .num q
  | .str s =>
      match pyFloat s with
      | some q => .num q
      | Option.none => .nan
  | .bool b => .num (if b then 1 else 0)
  | _ => .nan

/-- The `teamname` unwrap lambda of the cleaning functions:
`x.get("$t") if isinstance(x, dict) else x`. -/
def unwrapTeamnameCell : PyVal → PyVal
  | .dict fields => (dictLookup fields "$t").getD .none
  | v => v

/-- Element-wise `cell == v` against a Python string, as used by
the filter masks: only an equal string compares `True`. -/
def cellEqStr (cell : PyVal) (v : String) : Bool :=
  match cell with
  | .str s => s == v
  | _ => false

/-!
Section: DataFrames

A pandas DataFrame is modelled as an ordered column list plus rows
of cells aligned with it.
-/

/-- A DataFrame: named columns and rows of cells aligned with the
column list. -/
structure DF where
  cols : List String
  rows : List (List PyVal)

/-- The cell of row `r` in column `c` (missing columns read as
`nan`; the embedded code only reads columns it has established to
be present). -/
def getCell (cols : List String) (r : List PyVal) (c : String) : PyVal :=
  ((cols.zip r).lookup c).getD .nan

/-- The column `c` of a DataFrame, as the list of its cells in row
order. -/
def colValues (df : DF) (c : String) : List PyVal :=
  df.rows.map fun r => getCell df.cols r c

/-- `df[c] = df[c].apply(f)`: rewrite one column in place. -/
def mapColDF (df : DF) (c : String) (f : PyVal → PyVal) : DF :=
  ⟨df.cols, df.rows.map fun r =>
    (df.cols.zip r).map fun p => if p.1 = c then f p.2 else p.2⟩

/-- `df.drop(columns=[col for col in cs if col in df.columns])`. -/
def dropColsDF (df : DF) (cs : List String) : DF :=
  ⟨df.cols.filter fun c => !cs.contains c,
   df.rows.map fun r => ((df.cols.zip r).filter fun p => !cs.contains p.1).map Prod.snd⟩

/-- `df.rename(columns=m)`: keys not in the map are kept. -/
def renameColsDF (df : DF) (m : List (String × String)) : DF :=
  ⟨df.cols.map fun c => (m.lookup c).getD c, df.rows⟩

/-- `df.columns = [m.get(col, col.upper()) for col in df.columns]`. -/
def canonColsDF (df : DF) (m : List (String × String)) : DF :=
  ⟨df.cols.map fun c => (m.lookup c).getD (upperStr c), df.rows⟩

/-- `df[cs]`: select (and reorder) columns by name. -/
def selectColsDF (df : DF) (cs : List String) : DF :=
  ⟨cs, df.rows.map fun r => cs.map fun c => getCell df.cols r c⟩

/-- The final reordering step of each cleaning function:
`df[[col for col in order if col in df.columns] + [col for col in
df.columns if col not in order]]`. -/
def reorderDF (df : DF) (order : List String) : DF :=
  selectColsDF df
    ((order.filter fun c => df.cols.contains c) ++
      (df.cols.filter fun c => !order.contains c))

/-- Column set of `pd.DataFrame(records)`: keys in order of first
appearance across the records. -/
def unionKeys (recs : List (List (String × PyVal))) : List String :=
  recs.foldl (fun acc r => acc ++ ((r.map Prod.fst).filter fun k => !acc.contains k)) []

/-- `pd.DataFrame(records)` for a list of key/value records: the
union of keys as columns, one row per record, absent keys read as
`nan`.  In particular `pd.DataFrame([])` has no columns at all. -/
def dfOfRecords (recs : List (List (String × PyVal))) : DF :=
  let cols := unionKeys recs
  ⟨cols, recs.map fun r => cols.map fun c => (r.lookup c).getD .nan⟩

/-- A record must be a dict for `pd.DataFrame` to accept it as a
row. -/
def asRecords : List PyVal → Option (List (List (String × PyVal)))
  | [] => some []
  | .dict fields :: rest => (asRecords rest).map fun rs => fields :: rs
  | _ :: _ => Option.none

/-- `pd.DataFrame(x)` as used by the extractors: a list of mapping
records builds a table.  Other shapes (a mapping of scalars, a
scalar) raise; scalar-list inputs, which the extractors never rely
on, are modelled conservatively as errors as well. -/
def pdDataFrameOf (x : PyVal) : Except PyErr DF :=
  match x with
  | .list xs =>
      match asRecords xs with
      | some recs => .ok (dfOfRecords recs)
      | Option.none => .error .valueError
  | _ => .error .valueError

/-!
Section: Fetcher (`fetch`, widget.py lines 54-65)

The HTTP layer is abstracted by `HttpAttempt`: either the request
produced a response (with a status code and a body that may or may
not be valid JSON), or `requests.get` itself raised a
network-level error (`ConnectionError`, `Timeout`, ...), which is
a `RequestException` but *not* an `HTTPError` and is therefore not
caught by the `except` clause of `fetch`.
-/

/-- The fixed base host of the Pointstreak API. -/
def BASE_URL : String := "https://api.pointstreak.com"

/-- What the HTTP client did for one request. -/
inductive HttpAttempt where
  | response (status : Nat) (body : Option PyVal)
  | failedConnection

/-- `fetch(endpoint)`: `raise_for_status` raises `HTTPError` for
status codes 400-599, which the function catches, logging a
404-specific or generic diagnostic and returning `{}`.  A
network-level failure of `requests.get` and a `response.json()`
decode failure are not caught and propagate.  The returned list
collects the diagnostic messages printed to the console. -/
def fetch (endpoint : String) (att : HttpAttempt) : Except PyErr (PyVal × List String) :=
  match att with
  | .failedConnection => .error .connectionError
  | .response status body =>
      if 400 ≤ status ∧ status < 600 then
        if status = 404 then
          .ok (.dict [], ["404 Not Found: " ++ BASE_URL ++ "/" ++ endpoint])
        else
          .ok (.dict [], ["Error fetching " ++ BASE_URL ++ "/" ++ endpoint ++ ": HTTPError"])
      else
        match body with
        | some j => .ok (j, [])
        | Option.none => .error .jsonDecodeError

/-!
Section: Record extractors (widget.py lines 72-89)
-/

/-- The shared body of `get_batting_stats` and
`get_pitching_stats`:
`pd.DataFrame(data.get("stats", {}).get(cat, {}).get("player", []))`. -/
def get_stats_df (data : PyVal) (cat : String) : Except PyErr DF := do
  let s ← pyGet data "stats" (.dict [])
  let b ← pyGet s cat (.dict [])
  let p ← pyGet b "player" (.list [])
  pdDataFrameOf p

/-- `get_batting_stats` applied to the already-fetched payload. -/
def get_batting_stats (data : PyVal) : Except PyErr DF :=
  get_stats_df data "batting"

/-- `get_pitching_stats` applied to the already-fetched payload. -/
def get_pitching_stats (data : PyVal) : Except PyErr DF :=
  get_stats_df data "pitching"

/-- The inner loop of `get_fielding_stats` over one group's
`player` list: `player["position"] = position.get("position");
players.append(player)`. -/
def fieldingPlayers (g : PyVal) : List PyVal → Except PyErr (List PyVal)
  | [] => .ok []
  | e :: es => do
      let label ← pyGet g "position" .none
      let e2 ← pySetItem e "position" label
      let rest ← fieldingPlayers g es
      pure (e2 :: rest)

/-- The outer loop of `get_fielding_stats` over the position
groups: a group's `player` field contributes records only when it
is a list (`isinstance(player_list, list)`). -/
def fieldingLoop : List PyVal → Except PyErr (List PyVal)
  | [] => .ok []
  | g :: rest => do
      let playerList ← pyGet g "player" (.list [])
      let recs ←
        match playerList with
        | .list es => fieldingPlayers g es
        | _ => pure []
      let restRecs ← fieldingLoop rest
      pure (recs ++ restRecs)

/-- The flat record list built by `get_fielding_stats` before the
final `pd.DataFrame(players)`. -/
def get_fielding_records (data : PyVal) : Except PyErr (List PyVal) := do
  let s ← pyGet data "stats" (.dict [])
  let p ← pyGet s "position" (.list [])
  let groups ← pyIter p
  fieldingLoop groups

/-- `get_fielding_stats` applied to the already-fetched payload. -/
def get_fielding_stats (data : PyVal) : Except PyErr DF := do
  let recs ← get_fielding_records data
  pdDataFrameOf (.list recs)

/-!
Section: Cleaning functions (widget.py lines 96-139)

Each cleaning function first overwrites the `teamname` column of
the DataFrame it was passed (an in-place mutation visible to the
caller), then builds new frames by dropping, renaming, coercing
and reordering.  `clean_*_df_call` returns the pair (caller's
frame after the call, returned frame).
-/

/-- Lines 98-99 / 113-114 / 128-129: unwrap the `$t` wrapper in
the `teamname` column, in place, when that column exists. -/
def unwrapStep (df : DF) : DF :=
  if df.cols.contains "teamname" then mapColDF df "teamname" unwrapTeamnameCell else df

/-- Per-column numeric coercion loop: `for col in numeric_cols: if
col in df.columns: df[col] = pd.to_numeric(df[col], errors="coerce")`. -/
def toNumericCols (df : DF) (numericCols : List String) : DF :=
  numericCols.foldl (fun d c => if d.cols.contains c then mapColDF d c toNumericCell else d) df

/-- Batting rename map (line 101). -/
def battingRenameMap : List (String × String) :=
  [("playername", "PLAYER"), ("teamname", "TEAM"), ("jersey", "JERSEY"), ("position", "P")]

/-- Batting numeric columns (line 104). -/
def battingNumericCols : List String :=
  ["AVG", "AB", "RUNS", "HITS", "HR", "RBI", "BB", "HP", "SO", "SF", "SB", "DP",
   "BIB", "TRIB", "OBP", "SLG"]

/-- Batting column order (line 108). -/
def battingOrder : List String :=
  ["PLAYER", "JERSEY", "TEAM", "P", "AVG", "AB", "RUNS", "HITS", "HR", "RBI", "BB",
   "HP", "SO", "SF", "SB", "DP"]

/-- Lines 100-109 of `clean_batting_df`, after the in-place
`teamname` rewrite. -/
def battingRest (df : DF) : DF :=
  let df := dropColsDF df ["playerlinkid", "playerid", "firstname", "lastname"]
  let df := renameColsDF df battingRenameMap
  let df := canonColsDF df battingRenameMap
  let df := toNumericCols df battingNumericCols
  reorderDF df battingOrder

/-- `clean_batting_df(df)` as an effectful call: the first
component is the caller's DataFrame after the call, the second the
returned DataFrame. -/
def clean_batting_df_call (df : DF) : DF × DF :=
  let df1 := unwrapStep df
  (df1, battingRest df1)

/-- The value returned by `clean_batting_df`. -/
def clean_batting_df (df : DF) : DF := (clean_batting_df_call df).2

/-- Pitching rename map (line 116). -/
def pitchingRenameMap : List (String × String) :=
  [("playername", "PLAYER"), ("teamname", "TEAM"), ("jersey", "JERSEY"), ("games", "G")]

/-- Pitching numeric columns (line 119). -/
def pitchingNumericCols : List String :=
  ["ERA", "G", "GS", "CG", "CGL", "IP", "HITS", "RUNS", "ER", "BB", "SO", "SV",
   "BSV", "WINS", "LOSSES", "BF", "SHO"]

/-- Pitching column order (line 123). -/
def pitchingOrder : List String :=
  ["PLAYER", "JERSEY", "TEAM", "ERA", "G", "GS", "CG", "CGL", "IP", "HITS", "RUNS",
   "ER", "BB", "SO", "WINS", "LOSSES", "SV", "BSV"]

/-- Lines 115-124 of `clean_pitching_df`, after the in-place
`teamname` rewrite. -/
def pitchingRest (df : DF) : DF :=
  let df := dropColsDF df
    ["playerlinkid", "playerid", "firstname", "lastname", "oobp", "oslg", "oavg"]
  let df := renameColsDF df pitchingRenameMap
  let df := canonColsDF df pitchingRenameMap
  let df := toNumericCols df pitchingNumericCols
  reorderDF df pitchingOrder

/-- `clean_pitching_df(df)` as an effectful call. -/
def clean_pitching_df_call (df : DF) : DF × DF :=
  let df1 := unwrapStep df
  (df1, pitchingRest df1)

/-- The value returned by `clean_pitching_df`. -/
def clean_pitching_df (df : DF) : DF := (clean_pitching_df_call df).2

/-- Fielding rename map (line 131). -/
def fieldingRenameMap : List (String × String) :=
  [("name", "PLAYER"), ("jersey", "JERSEY"), ("teamname", "TEAM"), ("position", "P")]

/-- Fielding numeric columns (line 134). -/
def fieldingNumericCols : List String := ["FPCT", "GP", "PO", "A"]

/-- Fielding column order (line 138). -/
def fieldingOrder : List String :=
  ["PLAYER", "JERSEY", "TEAM", "P", "FPCT", "GP", "PO", "A"]

/-- Lines 130-139 of `clean_fielding_df`, after the in-place
`teamname` rewrite. -/
def fieldingRest (df : DF) : DF :=
  let df := dropColsDF df ["playerlinkid"]
  let df := renameColsDF df fieldingRenameMap
  let df := canonColsDF df fieldingRenameMap
  let df := toNumericCols df fieldingNumericCols
  reorderDF df fieldingOrder

/-- `clean_fielding_df(df)` as an effectful call. -/
def clean_fielding_df_call (df : DF) : DF × DF :=
  let df1 := unwrapStep df
  (df1, fieldingRest df1)

/-- The value returned by `clean_fielding_df`. -/
def clean_fielding_df (df : DF) : DF := (clean_fielding_df_call df).2

/-!
Section: Filter/sort pipelines (widget.py lines 275-301)
-/

/-- `filtered = filtered[filtered[c] == v]`: keep the rows whose
cell in column `c` equals the string `v`. -/
def filterEq (df : DF) (c v : String) : DF :=
  ⟨df.cols, df.rows.filter fun r => cellEqStr (getCell df.cols r c) v⟩

/-- "Row `a` must come strictly before row `b`" for a descending
sort on column `c`: larger numbers first, non-numeric cells (NaN)
last. -/
def rowKeyBeats (cols : List String) (c : String) (a b : List PyVal) : Bool :=
  match getCell cols a c, getCell cols b c with
  | .num qa, .num qb => decide (qb < qa)
  | .num _, _ => true
  | _, _ => false

/-- Insert a row into an already ordered list, after every row
that is not strictly after it (ties keep their existing order). -/
def insertRowDesc (beats : List PyVal → List PyVal → Bool) (r : List PyVal) :
    List (List PyVal) → List (List PyVal)
  | [] => [r]
  | x :: xs => if beats r x then r :: x :: xs else x :: insertRowDesc beats r xs

/-- `df.sort_values(by=c, ascending=False)`.  The rows are ordered
descending by column `c` with NaN last; this definition fixes one
admissible tie order (a stable one).  pandas' default sort kind
(`quicksort`) leaves the order of tied rows unspecified, so only
properties independent of the tie order can be read off the
source. -/
def sort_values_desc (df : DF) (c : String) : DF :=
  ⟨df.cols, df.rows.foldr (insertRowDesc (rowKeyBeats df.cols c)) []⟩

/-- Lines 275-283: the batting filter/sort pipeline producing
`batting_filtered` from the selections. -/
def batting_filtered (df : DF) (team player position sortCol : String) : DF :=
  let t := df
  let t := if team ≠ "All" then filterEq t "TEAM" team else t
  let t := if player ≠ "All" then filterEq t "PLAYER" player else t
  let t := if position ≠ "All" then filterEq t "P" position else t
  if sortCol ≠ "None" then sort_values_desc t sortCol else t

/-- Lines 285-293: the fielding filter/sort pipeline. -/
def fielding_filtered (df : DF) (team player position sortCol : String) : DF :=
  let t := df
  let t := if team ≠ "All" then filterEq t "TEAM" team else t
  let t := if player ≠ "All" then filterEq t "PLAYER" player else t
  let t := if position ≠ "All" then filterEq t "P" position else t
  if sortCol ≠ "None" then sort_values_desc t sortCol else t

/-- Lines 295-301: the pitching filter/sort pipeline (no position
filter). -/
def pitching_filtered (df : DF) (team player sortCol : String) : DF :=
  let t := df
  let t := if team ≠ "All" then filterEq t "TEAM" team else t
  let t := if player ≠ "All" then filterEq t "PLAYER" player else t
  if sortCol ≠ "None" then sort_values_desc t sortCol else t

/-!
Section: Report caption (widget.py lines 177-186)
-/

/-- The `filter_text` caption built by `add_title_and_table`: the
team/player/sort line, with a position entry appended when the
section title starts with "Batting" (resp. "Fielding") and the
ambient `batting_position` (resp. `fielding_position`) selection
is truthy, i.e. a non-empty string. -/
def filter_text (title team player sortCol battingPosition fieldingPosition : String) :
    String :=
  let base := "Filters: Team = " ++ team ++ ", Player = " ++ player ++ ", Sort = " ++ sortCol
  if strStartsWith title "Batting" && !(battingPosition == "") then
    base ++ ", Position = " ++ battingPosition
  else if strStartsWith title "Fielding" && !(fieldingPosition == "") then
    base ++ ", Position = " ++ fieldingPosition
  else base

/-!
Section: Shape predicates and specification-side definitions
-/

/-- A payload value is well-shaped along the
`stats → cat → player` lookup path: at each level the key is
either absent or bound to a value of the expected type (mappings,
and finally a list of mapping records). -/
def wfStatsPlayer (data : PyVal) (cat : String) : Bool :=
  match data with
  | .dict fields =>
      match dictLookup fields "stats" with
      | Option.none => true
      | some (.dict sfs) =>
          match dictLookup sfs cat with
          | Option.none => true
          | some (.dict bfs) =>
              match dictLookup bfs "player" with
              | Option.none => true
              | some (.list ps) => ps.all PyVal.isDict
              | some _ => false
          | some _ => false
      | some _ => false
  | _ => false

/-- A fielding position group is a mapping whose `player` field,
when it is a list, contains only mappings.  (A `player` field of
any non-list type is fine: the code skips the group.) -/
def wfGroup (g : PyVal) : Bool :=
  match g with
  | .dict gfs =>
      match dictLookup gfs "player" with
      | some (.list es) => es.all PyVal.isDict
      | _ => true
  | _ => false

/-- A fielding payload is well-shaped: `stats`, when present, is a
mapping whose `position` field, when present, is a list of
well-shaped groups. -/
def wfFieldingPayload (data : PyVal) : Bool :=
  match data with
  | .dict fields =>
      match dictLookup fields "stats" with
      | Option.none => true
      | some (.dict sfs) =>
          match dictLookup sfs "position" with
          | Option.none => true
          | some (.list gs) => gs.all wfGroup
          | some _ => false
      | some _ => false
  | _ => false

/-- Total version of `e[k] = v`: assignment on a dict, identity on
everything else (only applied to dicts in the theorems below). -/
def setKeyTotal (e : PyVal) (k : String) (v : PyVal) : PyVal :=
  match e with
  | .dict fields => .dict (dictSet fields k v)
  | x => x

/-- The group's position label, `position.get("position")`. -/
def groupLabel (g : PyVal) : PyVal :=
  match g with
  | .dict gfs => (dictLookup gfs "position").getD .none
  | _ => .none

/-- Specification-side description of one position group's
contribution, following the spec's words: if the group's `player`
field is a list, one record per entry with a `position` key set to
the group's label; otherwise no records. -/
def fieldingGroupSpec (g : PyVal) : List PyVal :=
  match g with
  | .dict gfs =>
      match dictLookup gfs "player" with
      | some (.list es) => es.map fun e => setKeyTotal e "position" (groupLabel g)
      | _ => []
  | _ => []

/-!
Section: Concrete sample inputs
-/

/-- The batting payload of end-to-end scenario A. -/
def scenarioAPayload : PyVal :=
  .dict [("stats", .dict [("batting", .dict [("player", .list [
    .dict [("playername", .str "J Smith"), ("teamname", .dict [("$t", .str "Hawks")]),
           ("jersey", .str "7"), ("avg", .str ".345")]])])])]

/-- The fielding payload of end-to-end scenario B: one group whose
`player` field is a single mapping, one group with a proper
two-entry list. -/
def scenarioBPayload : PyVal :=
  .dict [("stats", .dict [("position", .list [
    .dict [("position", .str "OF"), ("player", .dict [("name", .str "Solo")])],
    .dict [("position", .str "C"), ("player", .list [
      .dict [("name", .str "A")], .dict [("name", .str "B")]])]])])]

/-- A fielding payload whose single group has a `player` list
containing a non-mapping entry. -/
def badEntryFieldingPayload : PyVal :=
  .dict [("stats", .dict [("position", .list [
    .dict [("position", .str "C"), ("player", .list [.str "oops"])]])])]

/-- A small table with a `teamname` column holding one wrapped and
one plain value. -/
def sampleTeamDF : DF :=
  ⟨["PLAYER", "teamname"],
   [[.str "A", .dict [("$t", .str "Hawks")]], [.str "B", .str "Sharks"]]⟩

/-!
Section: Helper lemmas
-/

theorem exBindOk {α β : Type} (x : α) (f : α → Except PyErr β) :
    (Except.ok x : Except PyErr α) >>= f = f x := rfl

theorem exBindErr {α β : Type} (e : PyErr) (f : α → Except PyErr β) :
    (Except.error e : Except PyErr α) >>= f = Except.error e := rfl

theorem zip_map_snd (cols : List String) (r : List PyVal) (h : String × PyVal → PyVal) :
    cols.zip ((cols.zip r).map h) = (cols.zip r).map fun p => (p.1, h p) := by
  induction cols generalizing r with
  | nil => simp
  | cons a as ih =>
    cases r with
    | nil => simp
    | cons v vs => simp only [List.zip_cons_cons, List.map_cons, ih]

theorem lookup_map_keyed (l : List (String × PyVal)) (c t : String) (f : PyVal → PyVal) :
    (l.map fun p => (p.1, if p.1 = t then f p.2 else p.2)).lookup c
      = if c = t then (l.lookup c).map f else l.lookup c := by
  induction l with
  | nil => simp
  | cons p rest ih =>
    obtain ⟨k, v⟩ := p
    by_cases hck : c = k
    · subst hck
      by_cases hct : c = t <;> simp [List.lookup, hct]
    · have hba : (c == k) = false := by
        simpa [beq_eq_false_iff_ne] using hck
      simp [List.lookup, hba, ih]

theorem getCell_map_row (cols : List String) (r : List PyVal) (c t : String)
    (f : PyVal → PyVal) (hf : f PyVal.nan = PyVal.nan) :
    getCell cols ((cols.zip r).map fun p => if p.1 = t then f p.2 else p.2) c
      = if c = t then f (getCell cols r c) else getCell cols r c := by
  unfold getCell
  rw [zip_map_snd, lookup_map_keyed]
  by_cases h : c = t
  · simp only [if_pos h]
    cases (cols.zip r).lookup c <;> simp [hf]
  · simp [h]

theorem colValues_mapColDF (df : DF) (t c : String) (f : PyVal → PyVal)
    (hf : f PyVal.nan = PyVal.nan) :
    colValues (mapColDF df t f) c
      = if c = t then (colValues df c).map f else colValues df c := by
  unfold colValues mapColDF
  by_cases h : c = t
  · simp only [if_pos h, List.map_map]
    refine List.map_congr_left fun r _ => ?_
    simpa [Function.comp, h] using getCell_map_row df.cols r c t f hf
  · simp only [if_neg h, List.map_map]
    refine List.map_congr_left fun r _ => ?_
    simpa [Function.comp, h] using getCell_map_row df.cols r c t f hf

theorem unwrapStep_spec (df : DF) (h : "teamname" ∈ df.cols) :
    (unwrapStep df).cols = df.cols
      ∧ colValues (unwrapStep df) "teamname"
          = (colValues df "teamname").map unwrapTeamnameCell
      ∧ ∀ c, c ≠ "teamname" → colValues (unwrapStep df) c = colValues df c := by
  have hc : df.cols.contains "teamname" = true := by
    simpa [List.contains] using h
  unfold unwrapStep
  rw [hc]
  refine ⟨rfl, ?_, ?_⟩
  · simpa using colValues_mapColDF df "teamname" "teamname" unwrapTeamnameCell rfl
  · intro c hcne
    simpa [hcne] using colValues_mapColDF df "teamname" c unwrapTeamnameCell rfl

theorem asRecords_isSome_of_all_dict (xs : List PyVal) (h : xs.all PyVal.isDict = true) :
    (asRecords xs).isSome = true := by
  induction xs with
  | nil => rfl
  | cons x rest ih =>
    rw [List.all_cons, Bool.and_eq_true] at h
    obtain ⟨hx, hrest⟩ := h
    cases x <;> simp_all [asRecords, PyVal.isDict]

theorem pdDataFrameOf_isOk (xs : List PyVal) (h : xs.all PyVal.isDict = true) :
    (pdDataFrameOf (.list xs)).isOk = true := by
  have hs := asRecords_isSome_of_all_dict xs h
  unfold pdDataFrameOf
  cases hx : asRecords xs with
  | none => rw [hx] at hs; simp at hs
  | some recs => simp [hx, Except.isOk, Except.toBool]

theorem dictLookup_nil (k : String) : dictLookup [] k = Option.none := rfl

theorem statsPlayer_ok (data : PyVal) (cat : String) (h : wfStatsPlayer data cat = true) :
    (get_stats_df data cat).isOk = true := by
  cases data with
  | dict fields =>
    simp only [wfStatsPlayer] at h
    cases hs : dictLookup fields "stats" with
    | none =>
      simp [get_stats_df, pyGet, hs, dictLookup_nil, exBindOk, pdDataFrameOf, asRecords,
        Except.isOk, Except.toBool]
    | some s =>
      simp only [hs] at h
      cases s with
      | dict sfs =>
        cases hb : dictLookup sfs cat with
        | none =>
          simp [get_stats_df, pyGet, hs, hb, dictLookup_nil, exBindOk, pdDataFrameOf,
            asRecords, Except.isOk, Except.toBool]
        | some b =>
          simp only [hb] at h
          cases b with
          | dict bfs =>
            cases hp : dictLookup bfs "player" with
            | none =>
              simp [get_stats_df, pyGet, hs, hb, hp, dictLookup_nil, exBindOk,
                pdDataFrameOf, asRecords, Except.isOk, Except.toBool]
            | some p =>
              simp only [hp] at h
              cases p with
              | list ps =>
                have hok := pdDataFrameOf_isOk ps (by simpa using h)
                simp [get_stats_df, pyGet, hs, hb, hp, exBindOk]
                simpa [Except.isOk, Except.toBool] using hok
              | str s => simp at h
              | num q => simp at h
              | bool b => simp at h
              | none => simp at h
              | nan => simp at h
              | dict fs => simp at h
          | str s => simp at h
          | num q => simp at h
          | bool b2 => simp at h
          | none => simp at h
          | nan => simp at h
          | list ls => simp at h
      | str s2 => simp at h
      | num q => simp at h
      | bool b => simp at h
      | none => simp at h
      | nan => simp at h
      | list ls => simp at h
  | str s => simp [wfStatsPlayer] at h
  | num q => simp [wfStatsPlayer] at h
  | bool b => simp [wfStatsPlayer] at h
  | none => simp [wfStatsPlayer] at h
  | nan => simp [wfStatsPlayer] at h
  | list ls => simp [wfStatsPlayer] at h

theorem fieldingPlayers_eq (gfs : List (String × PyVal)) (es : List PyVal)
    (h : es.all PyVal.isDict = true) :
    fieldingPlayers (.dict gfs) es
      = .ok (es.map fun e => setKeyTotal e "position" (groupLabel (.dict gfs))) := by
  induction es with
  | nil => rfl
  | cons e rest ih =>
    rw [List.all_cons, Bool.and_eq_true] at h
    obtain ⟨he, hrest⟩ := h
    cases e with
    | dict efs =>
      simp [fieldingPlayers, pyGet, pySetItem, exBindOk, ih hrest, setKeyTotal, groupLabel]
    | str s => simp [PyVal.isDict] at he
    | num q => simp [PyVal.isDict] at he
    | bool b => simp [PyVal.isDict] at he
    | none => simp [PyVal.isDict] at he
    | nan => simp [PyVal.isDict] at he
    | list ls => simp [PyVal.isDict] at he

theorem fieldingLoop_eq (gs : List PyVal) (h : gs.all wfGroup = true) :
    fieldingLoop gs = .ok ((gs.map fieldingGroupSpec).flatten) := by
  induction gs with
  | nil => rfl
  | cons g rest ih =>
    rw [List.all_cons, Bool.and_eq_true] at h
    obtain ⟨hg, hrest⟩ := h
    cases g with
    | dict gfs =>
      simp only [wfGroup] at hg
      cases hp : dictLookup gfs "player" with
      | none =>
        simp [fieldingLoop, pyGet, hp, exBindOk, fieldingPlayers_eq gfs [] rfl,
          ih hrest, fieldingGroupSpec]
      | some pl =>
        rw [hp] at hg
        cases pl with
        | list es =>
          have hes : es.all PyVal.isDict = true := hg
          simp [fieldingLoop, pyGet, hp, exBindOk, fieldingPlayers_eq gfs es hes,
            ih hrest, fieldingGroupSpec]
        | str s =>
          simp [fieldingLoop, pyGet, hp, exBindOk, ih hrest, fieldingGroupSpec]
        | num q =>
          simp [fieldingLoop, pyGet, hp, exBindOk, ih hrest, fieldingGroupSpec]
        | bool b =>
          simp [fieldingLoop, pyGet, hp, exBindOk, ih hrest, fieldingGroupSpec]
        | none =>
          simp [fieldingLoop, pyGet, hp, exBindOk, ih hrest, fieldingGroupSpec]
        | nan =>
          simp [fieldingLoop, pyGet, hp, exBindOk, ih hrest, fieldingGroupSpec]
        | dict dfs =>
          simp [fieldingLoop, pyGet, hp, exBindOk, ih hrest, fieldingGroupSpec]
    | str s => simp [wfGroup] at hg
    | num q => simp [wfGroup] at hg
    | bool b => simp [wfGroup] at hg
    | none => simp [wfGroup] at hg
    | nan => simp [wfGroup] at hg
    | list ls => simp [wfGroup] at hg

theorem fieldingGroupSpec_all_dict (g : PyVal) (hg : wfGroup g = true) :
    (fieldingGroupSpec g).all PyVal.isDict = true := by
  cases g with
  | dict gfs =>
    simp only [wfGroup] at hg
    cases hp : dictLookup gfs "player" with
    | none => simp [fieldingGroupSpec, hp]
    | some pl =>
      rw [hp] at hg
      cases pl with
      | list es =>
        rw [List.all_eq_true] at hg
        simp only [fieldingGroupSpec, hp, List.all_map, List.all_eq_true]
        intro e he
        have := hg e he
        cases e <;> simp_all [setKeyTotal, PyVal.isDict]
      | str s => simp [fieldingGroupSpec, hp]
      | num q => simp [fieldingGroupSpec, hp]
      | bool b => simp [fieldingGroupSpec, hp]
      | none => simp [fieldingGroupSpec, hp]
      | nan => simp [fieldingGroupSpec, hp]
      | dict dfs => simp [fieldingGroupSpec, hp]
  | str s => simp [fieldingGroupSpec]
  | num q => simp [fieldingGroupSpec]
  | bool b => simp [fieldingGroupSpec]
  | none => simp [fieldingGroupSpec]
  | nan => simp [fieldingGroupSpec]
  | list ls => simp [fieldingGroupSpec]

theorem fielding_ok (data : PyVal) (h : wfFieldingPayload data = true) :
    (get_fielding_stats data).isOk = true := by
  cases data with
  | dict fields =>
    simp only [wfFieldingPayload] at h
    cases hs : dictLookup fields "stats" with
    | none =>
      simp [get_fielding_stats, get_fielding_records, pyGet, pyIter, hs, dictLookup_nil,
        exBindOk, fieldingLoop, pdDataFrameOf, asRecords, Except.isOk, Except.toBool]
    | some s =>
      simp only [hs] at h
      cases s with
      | dict sfs =>
        cases hp : dictLookup sfs "position" with
        | none =>
          simp [get_fielding_stats, get_fielding_records, pyGet, pyIter, hs, hp,
            dictLookup_nil, exBindOk, fieldingLoop, pdDataFrameOf, asRecords,
            Except.isOk, Except.toBool]
        | some p =>
          simp only [hp] at h
          cases p with
          | list gs =>
            have hrec := fieldingLoop_eq gs h
            have hall : ((gs.map fieldingGroupSpec).flatten).all PyVal.isDict = true := by
              rw [List.all_eq_true]
              intro r hr
              rw [List.mem_flatten] at hr
              obtain ⟨l, hl, hrl⟩ := hr
              rw [List.mem_map] at hl
              obtain ⟨g, hgmem, rfl⟩ := hl
              have hwg : wfGroup g = true := by
                rw [List.all_eq_true] at h
                exact h g hgmem
              have := fieldingGroupSpec_all_dict g hwg
              rw [List.all_eq_true] at this
              exact this r hrl
            have hok := pdDataFrameOf_isOk _ hall
            simp [get_fielding_stats, get_fielding_records, pyGet, pyIter, hs, hp,
              exBindOk, hrec]
            simpa [Except.isOk, Except.toBool] using hok
          | str s2 => simp at h
          | num q => simp at h
          | bool b => simp at h
          | none => simp at h
          | nan => simp at h
          | dict dfs => simp at h
      | str s2 => simp at h
      | num q => simp at h
      | bool b => simp at h
      | none => simp at h
      | nan => simp at h
      | list ls => simp at h
  | str s => simp [wfFieldingPayload] at h
  | num q => simp [wfFieldingPayload] at h
  | bool b => simp [wfFieldingPayload] at h
  | none => simp [wfFieldingPayload] at h
  | nan => simp [wfFieldingPayload] at h
  | list ls => simp [wfFieldingPayload] at h

/-!
Section: Claims
-/

/-- Claim C1, counterexample.  The claim says every fetch failure —
including a network error — returns an empty mapping and never
raises.  In the code only `requests.exceptions.HTTPError` is
caught, so a network-level failure of `requests.get` (e.g. a
`ConnectionError`) propagates to the caller instead of producing
the empty mapping: at this concrete input `fetch` raises. -/
theorem claim_C1_counterexample :
    fetch "baseball/season/stats/34102/json" HttpAttempt.failedConnection
      = .error .connectionError := rfl

/-- Claim C1, amended.  On an HTTP error status (400-599)
`raise_for_status` raises `HTTPError`, which `fetch` catches: it
returns the empty mapping and logs a 404-specific or generic
diagnostic, and does not raise; failures of `requests.get` itself
(network errors) and JSON decode failures are not caught and
propagate. -/
theorem claim_C1_amended (endpoint : String) (status : Nat) (body : Option PyVal)
    (h1 : 400 ≤ status) (h2 : status < 600) :
    fetch endpoint (.response status body)
      = .ok (.dict [],
          [if status = 404 then "404 Not Found: " ++ BASE_URL ++ "/" ++ endpoint
           else "Error fetching " ++ BASE_URL ++ "/" ++ endpoint ++ ": HTTPError"]) := by
  simp only [fetch]
  rw [if_pos (⟨h1, h2⟩ : 400 ≤ status ∧ status < 600)]
  by_cases h : status = 404
  · rw [if_pos h, if_pos h]
  · rw [if_neg h, if_neg h]

/-- Claim C1, witness: the amended theorem applied to a 404 and to a 500
response. -/
theorem claim_C1_witness :
    fetch "baseball/season/stats/34102/json" (.response 404 Option.none)
        = .ok (.dict [],
            ["404 Not Found: https://api.pointstreak.com/baseball/season/stats/34102/json"])
      ∧ fetch "baseball/season/stats/34102/json" (.response 500 (some (.dict [])))
        = .ok (.dict [],
            ["Error fetching https://api.pointstreak.com/baseball/season/stats/34102/json: HTTPError"]) := by
  constructor
  · exact (claim_C1_amended "baseball/season/stats/34102/json" 404 Option.none
      (by decide) (by decide)).trans (by rfl)
  · exact (claim_C1_amended "baseball/season/stats/34102/json" 500 (some (.dict []))
      (by decide) (by decide)).trans (by rfl)

/-- Claim C2.  `pd.DataFrame([])` has no columns, and every cleaning
step is guarded by membership tests, so normalizing an empty
record list yields a table with zero rows and *zero* columns: the
canonical column set is not established, contradicting the claim
(and the UI code, which unconditionally reads the `TEAM`, `PLAYER`
and `P` columns of the cleaned tables and would raise `KeyError`
on an empty season). -/
theorem claim_C2_empty_input_loses_columns :
    clean_batting_df (dfOfRecords []) = ⟨[], []⟩
      ∧ clean_pitching_df (dfOfRecords []) = ⟨[], []⟩
      ∧ clean_fielding_df (dfOfRecords []) = ⟨[], []⟩
      ∧ "PLAYER" ∉ (clean_batting_df (dfOfRecords [])).cols
      ∧ "TEAM" ∉ (clean_batting_df (dfOfRecords [])).cols :=
  ⟨rfl, rfl, rfl, by decide, by decide⟩

/-- Claim C4, counterexample.  The code appends the position entry
whenever the ambient position selection is a truthy (non-empty)
string — it tests `and batting_position`, not `!= "All"` — so with
the position selector at its "All" sentinel the Batting caption is
not the claimed string (it carries a trailing ", Position = All"). -/
theorem claim_C4_counterexample :
    filter_text "Batting Stats" "Hawks" "All" "AVG" "All" "All"
      ≠ "Filters: Team = Hawks, Player = All, Sort = AVG" := by decide

/-- Two prefixes that disagree on their first character cannot both
start the same string. -/
theorem startsWithAux_head_ne (l : List Char) (a b : Char) (as bs : List Char)
    (hab : (a == b) = false) (h : startsWithAux l (a :: as) = true) :
    startsWithAux l (b :: bs) = false := by
  cases l with
  | nil => simp [startsWithAux] at h
  | cons c cs =>
    simp only [startsWithAux, Bool.and_eq_true, beq_iff_eq] at h
    obtain ⟨rfl, -⟩ := h
    simp [startsWithAux, hab]

/-- Claim C4, amended.  Each category section's caption lists team,
player and sort; a Batting (resp. Fielding) section appends the
position entry exactly when the ambient batting (resp. fielding)
position selection is non-empty — including the "All" sentinel,
since the selector always supplies a non-empty string — and a
section of any other category (Pitching) never gets a position
entry. -/
theorem claim_C4_amended (title team player sortCol bp fp : String) :
    (strStartsWith title "Batting" = true → bp ≠ "" →
        filter_text title team player sortCol bp fp
          = "Filters: Team = " ++ team ++ ", Player = " ++ player ++ ", Sort = " ++ sortCol
              ++ ", Position = " ++ bp)
      ∧ (strStartsWith title "Fielding" = true → fp ≠ "" →
        filter_text title team player sortCol bp fp
          = "Filters: Team = " ++ team ++ ", Player = " ++ player ++ ", Sort = " ++ sortCol
              ++ ", Position = " ++ fp)
      ∧ (strStartsWith title "Batting" = false → strStartsWith title "Fielding" = false →
        filter_text title team player sortCol bp fp
          = "Filters: Team = " ++ team ++ ", Player = " ++ player ++ ", Sort = " ++ sortCol)
      ∧ (strStartsWith title "Batting" = true → bp = "" →
        filter_text title team player sortCol bp fp
          = "Filters: Team = " ++ team ++ ", Player = " ++ player ++ ", Sort = " ++ sortCol)
      ∧ (strStartsWith title "Fielding" = true → fp = "" →
        filter_text title team player sortCol bp fp
          = "Filters: Team = " ++ team ++ ", Player = " ++ player ++ ", Sort = " ++ sortCol) := by
  refine ⟨fun ht hbp => ?_, fun hf hfp => ?_, fun hb hf => ?_, fun ht hbp => ?_,
    fun hf hfp => ?_⟩
  · have h2 : (bp == "") = false := by
      simpa [beq_eq_false_iff_ne] using hbp
    simp [filter_text, ht, h2]
  · have hB : startsWithAux title.toList ('B' :: "atting".toList) = false :=
      startsWithAux_head_ne title.toList 'F' 'B' "ielding".toList "atting".toList
        (by decide) hf
    have h2 : (fp == "") = false := by
      simpa [beq_eq_false_iff_ne] using hfp
    have hB' : strStartsWith title "Batting" = false := hB
    simp [filter_text, hB', hf, h2]
  · simp [filter_text, hb, hf]
  · have hF : startsWithAux title.toList ('F' :: "ielding".toList) = false :=
      startsWithAux_head_ne title.toList 'B' 'F' "atting".toList "ielding".toList
        (by decide) ht
    have hF' : strStartsWith title "Fielding" = false := hF
    subst hbp
    simp [filter_text, ht, hF']
  · have hB : startsWithAux title.toList ('B' :: "atting".toList) = false :=
      startsWithAux_head_ne title.toList 'F' 'B' "ielding".toList "atting".toList
        (by decide) hf
    have hB' : strStartsWith title "Batting" = false := hB
    subst hfp
    simp [filter_text, hB', hf]

/-- Claim C4, witness: the amended theorem applied to all three
section titles with every selector at its sentinel — the Batting
caption is scenario D's (with ", Position = All" appended), the
Fielding caption also carries its position entry, and the Pitching
caption has none. -/
theorem claim_C4_witness :
    filter_text "Batting Stats" "Hawks" "All" "AVG" "All" "All"
        = "Filters: Team = Hawks, Player = All, Sort = AVG, Position = All"
      ∧ filter_text "Fielding Stats" "All" "All" "FPCT" "All" "All"
        = "Filters: Team = All, Player = All, Sort = FPCT, Position = All"
      ∧ filter_text "Pitching Stats" "All" "All" "ERA" "All" "All"
        = "Filters: Team = All, Player = All, Sort = ERA" := by
  refine ⟨?_, ?_, ?_⟩
  · exact ((claim_C4_amended "Batting Stats" "Hawks" "All" "AVG" "All" "All").1
      (by decide) (by decide)).trans (by decide)
  · exact ((claim_C4_amended "Fielding Stats" "All" "All" "FPCT" "All" "All").2.1
      (by decide) (by decide)).trans (by decide)
  · exact ((claim_C4_amended "Pitching Stats" "All" "All" "ERA" "All" "All").2.2.1
      (by decide) (by decide)).trans (by decide)

/-- Claim C5, counterexample.  The claim says the extractors never raise
on any JSON value the fetcher can return; but on a payload whose
`stats` key holds a string, `.get("batting", {})` is called on a
non-dict and the batting extractor raises `AttributeError`. -/
theorem claim_C5_counterexample :
    get_batting_stats (.dict [("stats", .str "x")]) = .error .attributeError := rfl

/-- Claim C5, amended.  A missing key at any level of the fixed lookup
path falls back to empty, and any payload that is well-shaped
along the path (mappings at mapping levels, player lists and
position groups containing mappings) yields a record table without
raising; an unexpected type at a nesting level, however, makes the
extractor raise rather than return empty. -/
theorem claim_C5_amended (data : PyVal) :
    (wfStatsPlayer data "batting" = true → (get_batting_stats data).isOk = true)
      ∧ (wfStatsPlayer data "pitching" = true → (get_pitching_stats data).isOk = true)
      ∧ (wfFieldingPayload data = true → (get_fielding_stats data).isOk = true) :=
  ⟨fun h => statsPlayer_ok data "batting" h,
   fun h => statsPlayer_ok data "pitching" h,
   fun h => fielding_ok data h⟩

/-- Claim C5, witness: the amended theorem applied to scenario A's
batting payload, an empty pitching payload (all keys missing), and
scenario B's fielding payload. -/
theorem claim_C5_witness :
    (get_batting_stats scenarioAPayload).isOk = true
      ∧ (get_pitching_stats (.dict [])).isOk = true
      ∧ (get_fielding_stats scenarioBPayload).isOk = true :=
  ⟨(claim_C5_amended scenarioAPayload).1 (by decide),
   (claim_C5_amended (.dict [])).2.1 (by decide),
   (claim_C5_amended scenarioBPayload).2.2 (by decide)⟩

/-- Claim C6.  With all selections at their sentinel values
("All"/"None") each pipeline takes no filter and no sort branch
and returns the table unchanged, in rows and order. -/
theorem claim_C6_sentinel_identity (df : DF) :
    batting_filtered df "All" "All" "All" "None" = df
      ∧ fielding_filtered df "All" "All" "All" "None" = df
      ∧ pitching_filtered df "All" "All" "None" = df :=
  ⟨rfl, rfl, rfl⟩

/-- Claim C6, witness: the sentinel selection on a concrete table. -/
theorem claim_C6_witness :
    batting_filtered sampleTeamDF "All" "All" "All" "None" = sampleTeamDF
      ∧ fielding_filtered sampleTeamDF "All" "All" "All" "None" = sampleTeamDF
      ∧ pitching_filtered sampleTeamDF "All" "All" "None" = sampleTeamDF :=
  claim_C6_sentinel_identity sampleTeamDF

/-- Claim C8, counterexample.  The claim promises one record per entry
of every list-valued `player` field; but when such a list contains
a non-mapping entry, `player["position"] = ...` raises `TypeError`
and the extractor produces no records at all. -/
theorem claim_C8_counterexample :
    get_fielding_records badEntryFieldingPayload = .error .typeError := rfl

/-- Claim C8, amended.  For a fielding payload whose position groups are
mappings and whose list-valued `player` fields contain only
mappings, the extractor emits, group by group, one record per
entry of a list-valued `player` field, tagged with a `position`
key equal to the group's label, and zero records for a group whose
`player` field is not a list. -/
theorem claim_C8_amended (gs : List PyVal) (h : gs.all wfGroup = true) :
    get_fielding_records (.dict [("stats", .dict [("position", .list gs)])])
      = .ok ((gs.map fieldingGroupSpec).flatten) :=
  fieldingLoop_eq gs h

/-- Claim C8, witness: scenario B — the single-mapping group contributes
nothing, the two-entry list group contributes two records tagged
with its label. -/
theorem claim_C8_witness :
    get_fielding_records scenarioBPayload
      = .ok [.dict [("name", .str "A"), ("position", .str "C")],
             .dict [("name", .str "B"), ("position", .str "C")]] :=
  (claim_C8_amended
    [.dict [("position", .str "OF"), ("player", .dict [("name", .str "Solo")])],
     .dict [("position", .str "C"), ("player", .list [
       .dict [("name", .str "A")], .dict [("name", .str "B")]])]]
    (by decide)).trans (by rfl)

/-- Claim C9.  Extracting and normalizing scenario A's batting payload
yields exactly one row with PLAYER "J Smith", JERSEY "7", TEAM
"Hawks" (the wrapper unwrapped) and AVG the numeric value 0.345. -/
theorem claim_C9_scenarioA :
    (get_batting_stats scenarioAPayload).map clean_batting_df
      = .ok ⟨["PLAYER", "JERSEY", "TEAM", "AVG"],
             [[.str "J Smith", .str "7", .str "Hawks", .num (0.345 : ℚ)]]⟩ := by
  have h : fracVal [] ['3', '4', '5'] = (0.345 : ℚ) := by
    have hd : digitsVal ['3', '4', '5'] = 345 := by decide
    have hd0 : digitsVal ([] : List Char) = 0 := rfl
    unfold fracVal
    rw [hd, hd0]
    norm_num
  calc (get_batting_stats scenarioAPayload).map clean_batting_df
      = .ok ⟨["PLAYER", "JERSEY", "TEAM", "AVG"],
             [[.str "J Smith", .str "7", .str "Hawks",
               .num (fracVal [] ['3', '4', '5'])]]⟩ := rfl
    _ = .ok ⟨["PLAYER", "JERSEY", "TEAM", "AVG"],
             [[.str "J Smith", .str "7", .str "Hawks", .num (0.345 : ℚ)]]⟩ := by rw [h]

/-- Claim C10.  Each cleaning function overwrites the `teamname` column
of the DataFrame passed in, in place, with the unwrapped values —
after the call the caller's table has the same columns, its
`teamname` column mapped through the unwrap, and every other
column untouched. -/
theorem claim_C10_inplace_teamname (df : DF) (h : "teamname" ∈ df.cols) :
    ((clean_batting_df_call df).1.cols = df.cols
        ∧ colValues (clean_batting_df_call df).1 "teamname"
            = (colValues df "teamname").map unwrapTeamnameCell
        ∧ ∀ c, c ≠ "teamname" →
            colValues (clean_batting_df_call df).1 c = colValues df c)
      ∧ ((clean_pitching_df_call df).1.cols = df.cols
        ∧ colValues (clean_pitching_df_call df).1 "teamname"
            = (colValues df "teamname").map unwrapTeamnameCell
        ∧ ∀ c, c ≠ "teamname" →
            colValues (clean_pitching_df_call df).1 c = colValues df c)
      ∧ ((clean_fielding_df_call df).1.cols = df.cols
        ∧ colValues (clean_fielding_df_call df).1 "teamname"
            = (colValues df "teamname").map unwrapTeamnameCell
        ∧ ∀ c, c ≠ "teamname" →
            colValues (clean_fielding_df_call df).1 c = colValues df c) := by
  have H := unwrapStep_spec df h
  exact ⟨H, H, H⟩

/-- Claim C10, witness: on a concrete table the caller's frame has its
wrapped team name replaced by the inner value. -/
theorem claim_C10_witness :
    colValues (clean_batting_df_call sampleTeamDF).1 "teamname"
        = [.str "Hawks", .str "Sharks"]
      ∧ colValues (clean_fielding_df_call sampleTeamDF).1 "teamname"
        = [.str "Hawks", .str "Sharks"] := by
  have H := claim_C10_inplace_teamname sampleTeamDF (by decide)
  constructor
  · exact H.1.2.1.trans (by rfl)
  · exact H.2.2.2.1.trans (by rfl)
